import Mathlib

set_option maxHeartbeats 1000000

/-!
Shallow embedding of the unity-alerts Discord notifier, in its two
generations: the earlier file-state generation (`main.go`) and the later
multipart/attachment generation.

Modelling conventions:
* JSON documents are modelled by the inductive `Jv`; a `details` column is
  an `Option Jv`, with `none` standing for a byte string that is not
  syntactically valid JSON.  JSON numbers are modelled as integers (the
  only numeric fields the program decodes are Go `int` fields).
* `time.Time` values are modelled by the two string renderings the
  program takes of them (RFC3339 and the local "Reported" format).
* The geographic coordinates are never computed with, only tested for
  presence and interpolated into URLs / forwarded to the camera query,
  so they are modelled as `Option Int` stand-ins for `sql.NullFloat64`.
* External collaborators (camera directory, capture pipeline, webhook
  POST/PATCH) are oracles passed in as functions; their outcomes are the
  only nondeterminism.
-/

/-- A JSON value. -/
inductive Jv : Type where
  | null : Jv
  | bool (b : Bool) : Jv
  | num (n : Int) : Jv
  | str (s : String) : Jv
  | arr (xs : List Jv) : Jv
  | obj (members : List (String × Jv)) : Jv

/-- Lookup in a Go map obtained by unmarshalling a JSON object: a
duplicated key keeps its last occurrence. -/
def objLookup (fs : List (String × Jv)) (k : String) : Option Jv :=
  (fs.reverse.find? (fun p => p.1 == k)).map (·.2)

/-- Go encoding/json unmarshalling into `map[string]json.RawMessage`: it
succeeds exactly on a JSON object (or JSON `null`, which leaves the map
nil); any other document is an error. -/
def unmarshalMap : Option Jv → Option (List (String × Jv))
  | some (Jv.obj fs) => some fs
  | some Jv.null => some []
  | _ => none

/-- Go's case-insensitive JSON field-name match (`strings.EqualFold`,
adequate for the ASCII tags used here), computed on character lists so
it evaluates in the kernel. -/
def eqFold (a b : String) : Bool := a.data.map Char.toLower == b.data.map Char.toLower

/-- Go strings.HasPrefix, computed on character lists. -/
def startsWithStr (s pre : String) : Bool := pre.data.isPrefixOf s.data

/-- The NCDOT details struct (`reason`, `road`, `location`, `severity`),
with Go zero values as defaults. -/
structure NcdotRaw where
  reason : String := ""
  road : String := ""
  location : String := ""
  severity : Int := 0
deriving DecidableEq

/-- Decoding one JSON object member into the NCDOT struct: a matching key
with the right value type sets the field, `null` is a no-op, and a type
mismatch records an error but decoding continues (as `encoding/json`
does). -/
def decodeNcdotField (acc : NcdotRaw × Bool) (kv : String × Jv) : NcdotRaw × Bool :=
  if eqFold kv.1 "reason" then
    match kv.2 with
    | Jv.str s => ({ acc.1 with reason := s }, acc.2)
    | Jv.null => acc
    | _ => (acc.1, true)
  else if eqFold kv.1 "road" then
    match kv.2 with
    | Jv.str s => ({ acc.1 with road := s }, acc.2)
    | Jv.null => acc
    | _ => (acc.1, true)
  else if eqFold kv.1 "location" then
    match kv.2 with
    | Jv.str s => ({ acc.1 with location := s }, acc.2)
    | Jv.null => acc
    | _ => (acc.1, true)
  else if eqFold kv.1 "severity" then
    match kv.2 with
    | Jv.num n => ({ acc.1 with severity := n }, acc.2)
    | Jv.null => acc
    | _ => (acc.1, true)
  else acc

/-- Go json.Unmarshal of one JSON value into the NCDOT struct: an object is
decoded member by member, `null` is a no-op, anything else is an error
that leaves the struct at its zero value.  The `Bool` is the error flag. -/
def decodeNcdot : Jv → NcdotRaw × Bool
  | Jv.obj fs => fs.foldl decodeNcdotField ({}, false)
  | Jv.null => ({}, false)
  | _ => ({}, true)

/-- The RWECC details struct (`problem`, `jurisdiction`). -/
structure RweccRaw where
  problem : String := ""
  jurisdiction : String := ""
deriving DecidableEq

/-- One member into the RWECC struct (same rules as the NCDOT decoder). -/
def decodeRweccField (acc : RweccRaw × Bool) (kv : String × Jv) : RweccRaw × Bool :=
  if eqFold kv.1 "problem" then
    match kv.2 with
    | Jv.str s => ({ acc.1 with problem := s }, acc.2)
    | Jv.null => acc
    | _ => (acc.1, true)
  else if eqFold kv.1 "jurisdiction" then
    match kv.2 with
    | Jv.str s => ({ acc.1 with jurisdiction := s }, acc.2)
    | Jv.null => acc
    | _ => (acc.1, true)
  else acc

/-- Go json.Unmarshal of one JSON value into the RWECC struct. -/
def decodeRwecc : Jv → RweccRaw × Bool
  | Jv.obj fs => fs.foldl decodeRweccField ({}, false)
  | Jv.null => ({}, false)
  | _ => ({}, true)

/-- The ArcGIS details struct (`case_number`, `crime_description`,
`agency`). -/
structure ArcgisRaw where
  caseNumber : String := ""
  crimeDescription : String := ""
  agency : String := ""
deriving DecidableEq

/-- One member into the ArcGIS struct. -/
def decodeArcgisField (acc : ArcgisRaw × Bool) (kv : String × Jv) : ArcgisRaw × Bool :=
  if eqFold kv.1 "case_number" then
    match kv.2 with
    | Jv.str s => ({ acc.1 with caseNumber := s }, acc.2)
    | Jv.null => acc
    | _ => (acc.1, true)
  else if eqFold kv.1 "crime_description" then
    match kv.2 with
    | Jv.str s => ({ acc.1 with crimeDescription := s }, acc.2)
    | Jv.null => acc
    | _ => (acc.1, true)
  else if eqFold kv.1 "agency" then
    match kv.2 with
    | Jv.str s => ({ acc.1 with agency := s }, acc.2)
    | Jv.null => acc
    | _ => (acc.1, true)
  else acc

/-- Go json.Unmarshal of one JSON value into the ArcGIS struct. -/
def decodeArcgis : Jv → ArcgisRaw × Bool
  | Jv.obj fs => fs.foldl decodeArcgisField ({}, false)
  | Jv.null => ({}, false)
  | _ => ({}, true)

/-- The weather sub-document struct (`temperature`, `windSpeed`,
`shortForecast`, `icon`). -/
structure WeatherRaw where
  temperature : Int := 0
  windSpeed : String := ""
  shortForecast : String := ""
  icon : String := ""
deriving DecidableEq

/-- One member into the weather struct. -/
def decodeWeatherField (acc : WeatherRaw × Bool) (kv : String × Jv) : WeatherRaw × Bool :=
  if eqFold kv.1 "temperature" then
    match kv.2 with
    | Jv.num n => ({ acc.1 with temperature := n }, acc.2)
    | Jv.null => acc
    | _ => (acc.1, true)
  else if eqFold kv.1 "windSpeed" then
    match kv.2 with
    | Jv.str s => ({ acc.1 with windSpeed := s }, acc.2)
    | Jv.null => acc
    | _ => (acc.1, true)
  else if eqFold kv.1 "shortForecast" then
    match kv.2 with
    | Jv.str s => ({ acc.1 with shortForecast := s }, acc.2)
    | Jv.null => acc
    | _ => (acc.1, true)
  else if eqFold kv.1 "icon" then
    match kv.2 with
    | Jv.str s => ({ acc.1 with icon := s }, acc.2)
    | Jv.null => acc
    | _ => (acc.1, true)
  else acc

/-- Go json.Unmarshal of one JSON value into the weather struct. -/
def decodeWeather : Jv → WeatherRaw × Bool
  | Jv.obj fs => fs.foldl decodeWeatherField ({}, false)
  | Jv.null => ({}, false)
  | _ => ({}, true)

/-- Go json.Unmarshal of the weather member into the nil pointer
`weatherDetails`: for any non-`null` value the pointer is allocated
before the value is stored (even when the value then fails to decode into
the struct), so after the ignored-error call the pointer is non-nil for
every non-`null` value.  The builders reach this call only under the
guard `string(weatherJSON) != "null"`. -/
def decodeWeatherPtr (v : Jv) : Option WeatherRaw := some (decodeWeather v).1

/-- Which of the two decode paths of the later-generation builders ran. -/
inductive ParsePath where
  | newShape : ParsePath
  | legacy : ParsePath
deriving DecidableEq

/-- Result of the dual-path details parse of `buildNcdotPayload`. -/
structure NcdotParsed where
  raw : NcdotRaw
  weather : Option WeatherRaw
  path : ParsePath

/-- The dual-path details parse of `buildNcdotPayload` (later
generation): try the top-level map, read `raw_incident` and the
`"null"`-guarded `weather` from it; if the map unmarshal fails, fall back
to unmarshalling the whole document as the NCDOT struct (errors of the
inner unmarshals are discarded, as in the source). -/
def ncdotParseDetails (details : Option Jv) : NcdotParsed :=
  match unmarshalMap details with
  | some m =>
    { raw :=
        match objLookup m "raw_incident" with
        | some rawJSON => (decodeNcdot rawJSON).1
        | none => {},
      weather :=
        match objLookup m "weather" with
        | some Jv.null => none
        | some weatherJSON => decodeWeatherPtr weatherJSON
        | none => none,
      path := ParsePath.newShape }
  | none =>
    { raw :=
        match details with
        | some v => (decodeNcdot v).1
        | none => {},
      weather := none,
      path := ParsePath.legacy }

/-- Result of the dual-path details parse of `buildRweccPayload`. -/
structure RweccParsed where
  raw : RweccRaw
  weather : Option WeatherRaw
  path : ParsePath

/-- The dual-path details parse of `buildRweccPayload` (later
generation). -/
def rweccParseDetails (details : Option Jv) : RweccParsed :=
  match unmarshalMap details with
  | some m =>
    { raw :=
        match objLookup m "raw_incident" with
        | some rawJSON => (decodeRwecc rawJSON).1
        | none => {},
      weather :=
        match objLookup m "weather" with
        | some Jv.null => none
        | some weatherJSON => decodeWeatherPtr weatherJSON
        | none => none,
      path := ParsePath.newShape }
  | none =>
    { raw :=
        match details with
        | some v => (decodeRwecc v).1
        | none => {},
      weather := none,
      path := ParsePath.legacy }

/-- Result of the dual-path details parse of `buildArcGisPayload`. -/
structure ArcgisParsed where
  raw : ArcgisRaw
  path : ParsePath

/-- The dual-path details parse of `buildArcGisPayload` (later
generation, no weather handling). -/
def arcgisParseDetails (details : Option Jv) : ArcgisParsed :=
  match unmarshalMap details with
  | some m =>
    { raw :=
        match objLookup m "raw_incident" with
        | some rawJSON => (decodeArcgis rawJSON).1
        | none => {},
      path := ParsePath.newShape }
  | none =>
    { raw :=
        match details with
        | some v => (decodeArcgis v).1
        | none => {},
      path := ParsePath.legacy }

/-- A Discord embed author-less thumbnail. -/
structure EmbedThumbnail where
  url : String := ""
deriving DecidableEq

/-- A Discord embed inline image. -/
structure EmbedImage where
  url : String := ""
deriving DecidableEq

/-- One embed field. -/
structure EmbedField where
  name : String
  value : String
  inline : Bool
deriving DecidableEq

/-- An embed footer. -/
structure EmbedFooter where
  text : String := ""
deriving DecidableEq

/-- A Discord embed (the later-generation struct; the earlier generation
is the same minus the image member, which it leaves at its zero value). -/
structure DiscordEmbed where
  title : String := ""
  color : Int := 0
  fields : List EmbedField := []
  footer : EmbedFooter := {}
  timestamp : String := ""
  thumbnail : EmbedThumbnail := {}
  image : EmbedImage := {}
deriving DecidableEq

/-- The webhook payload. -/
structure DiscordWebhookPayload where
  username : String := ""
  avatarURL : String := ""
  embeds : List DiscordEmbed := []
deriving DecidableEq

/-- All embed fields of a payload, in order. -/
def payloadFields (p : DiscordWebhookPayload) : List EmbedField :=
  (p.embeds.map (·.fields)).flatten

/-- A nearby traffic camera. -/
structure Camera where
  name : String
  imageURL : String
deriving DecidableEq

/-- A `time.Time`, modelled by the two renderings the program takes of
it: `Format(time.RFC3339)` and the ArcGIS local "Mon, Jan 2, 3:04 PM"
rendering. -/
structure Ts where
  rfc3339 : String := ""
  localFormatted : String := ""
deriving DecidableEq

/-- The status column of an incident row. -/
inductive Status where
  | active : Status
  | cleared : Status
deriving DecidableEq

/-- A row of `unified_incidents`.  The Go struct `UnifiedIncident` plus
the `status` column, which the driver queries filter on without scanning
it. -/
structure UnifiedIncident where
  id : Nat
  source : String := ""
  sourceID : String := ""
  eventType : String := ""
  address : String := ""
  latitude : Option Int := none
  longitude : Option Int := none
  timestamp : Ts := {}
  details : Option Jv := none
  discordMessageID : Option String := none
  status : Status := Status.active

/-- The static-map URL.  Coordinates are only interpolated into the URL,
never computed with; their `%.6f` rendering is abstracted by `toString`
on the integer stand-ins. -/
def staticMapURL (zoomSize markerColor : String) (la lo : Int) (key : String) : String :=
  "https://maps.googleapis.com/maps/api/staticmap?center=" ++ toString la ++ "," ++ toString lo
    ++ "&" ++ zoomSize ++ "&markers=color:" ++ markerColor ++ "%7C" ++ toString la ++ ","
    ++ toString lo ++ "&key=" ++ key

/-- Markdown camera links for the cameras after the first (the later
generation's loop starts at index 1). -/
def otherCameraLinks (nearbyCameras : List Camera) : String :=
  String.intercalate "\n"
    ((nearbyCameras.drop 1).map (fun cam => "[" ++ cam.name ++ "](" ++ cam.imageURL ++ ")"))

/-- Markdown camera links for every returned camera (earlier
generation). -/
def allCameraLinks (nearbyCameras : List Camera) : String :=
  String.intercalate "\n"
    (nearbyCameras.map (fun cam => "[" ++ cam.name ++ "](" ++ cam.imageURL ++ ")"))

/-- The weather summary line `"<forecast>\nTemp: <N>°F\nWind: <speed>"`. -/
def weatherFieldValue (w : WeatherRaw) : String :=
  w.shortForecast ++ "\nTemp: " ++ toString w.temperature ++ "°F\nWind: " ++ w.windSpeed

/-- The NCDOT severity switch (shared verbatim by `buildNcdotPayload` and
the earlier `sendNcdotAlert`). -/
def ncdotColor (severity : Int) : Int :=
  if severity = 1 then 3066993
  else if severity = 2 then 16776960
  else if severity = 3 then 15158332
  else 2105893

/-- The later generation's buildNcdotPayload. -/
def buildNcdotPayload (mapsAPIKey : String) (incident : UnifiedIncident)
    (nearbyCameras : List Camera) (attachmentName : String) : DiscordWebhookPayload :=
  let parsed := ncdotParseDetails incident.details
  let color := ncdotColor parsed.raw.severity
  let fields : List EmbedField :=
    [ { name := "Reason", value := parsed.raw.reason, inline := false },
      { name := "Road", value := parsed.raw.road, inline := false },
      { name := "Location", value := parsed.raw.location, inline := false },
      { name := "Severity", value := toString parsed.raw.severity, inline := false } ]
  let fields : List EmbedField :=
    match parsed.weather with
    | some w => fields ++ [{ name := "Weather Conditions", value := weatherFieldValue w, inline := false }]
    | none => fields
  let fields : List EmbedField :=
    if nearbyCameras.length > 1 then
      fields ++ [{ name := "Other Live Cameras", value := otherCameraLinks nearbyCameras, inline := false }]
    else fields
  let thumbnail : EmbedThumbnail :=
    match incident.latitude, incident.longitude with
    | some la, some lo =>
      if mapsAPIKey ≠ "" then { url := staticMapURL "zoom=14&size=300x300" "red" la lo mapsAPIKey }
      else {}
    | _, _ => {}
  let image : EmbedImage :=
    if attachmentName ≠ "" then { url := "attachment://" ++ attachmentName } else {}
  { username := "Unified Alert Bot",
    embeds := [ { title := "🚨 NC DOT - Incident Alert 🚨", color := color, fields := fields,
                  footer := { text := "Source: NC DOT API" },
                  timestamp := incident.timestamp.rfc3339,
                  thumbnail := thumbnail, image := image } ] }

/-- The later generation's buildRweccPayload. -/
def buildRweccPayload (mapsAPIKey : String) (incident : UnifiedIncident)
    (nearbyCameras : List Camera) (attachmentName : String) : DiscordWebhookPayload :=
  let parsed := rweccParseDetails incident.details
  let fields : List EmbedField :=
    [ { name := "Address", value := incident.address, inline := false },
      { name := "Jurisdiction", value := parsed.raw.jurisdiction, inline := false } ]
  let fields : List EmbedField :=
    match parsed.weather with
    | some w => fields ++ [{ name := "Weather Conditions", value := weatherFieldValue w, inline := false }]
    | none => fields
  let fields : List EmbedField :=
    if nearbyCameras.length > 1 then
      fields ++ [{ name := "Other Live Cameras", value := otherCameraLinks nearbyCameras, inline := false }]
    else fields
  let thumbnail : EmbedThumbnail :=
    match incident.latitude, incident.longitude with
    | some la, some lo =>
      if mapsAPIKey ≠ "" then { url := staticMapURL "zoom=14&size=300x300" "red" la lo mapsAPIKey }
      else {}
    | _, _ => {}
  let image : EmbedImage :=
    if attachmentName ≠ "" then { url := "attachment://" ++ attachmentName } else {}
  { username := "Unified Alert Bot",
    embeds := [ { title := "🔵 " ++ parsed.raw.problem ++ " 🔵", color := 3447003, fields := fields,
                  footer := { text := "Source: Raleigh-Wake ECC" },
                  timestamp := incident.timestamp.rfc3339,
                  thumbnail := thumbnail, image := image } ] }

/-- The later generation's buildArcGisPayload. -/
def buildArcGisPayload (mapsAPIKey : String) (incident : UnifiedIncident) : DiscordWebhookPayload :=
  let parsed := arcgisParseDetails incident.details
  let formattedTime := incident.timestamp.localFormatted
  let fields : List EmbedField :=
    [ { name := "Address", value := incident.address, inline := false },
      { name := "Agency", value := parsed.raw.agency, inline := false } ]
  let fields : List EmbedField :=
    if !(startsWithStr parsed.raw.caseNumber "NO_CASE-") then
      fields ++ [{ name := "Case #", value := parsed.raw.caseNumber, inline := false }]
    else fields
  let fields : List EmbedField :=
    fields ++ [{ name := "Reported", value := formattedTime, inline := false }]
  let image : EmbedImage :=
    match incident.latitude, incident.longitude with
    | some la, some lo =>
      if mapsAPIKey ≠ "" then { url := staticMapURL "zoom=15&size=600x400" "purple" la lo mapsAPIKey }
      else {}
    | _, _ => {}
  { username := "Unified Alert Bot",
    embeds := [ { title := "🟣 " ++ parsed.raw.crimeDescription ++ " 🟣", color := 9807270,
                  fields := fields,
                  footer := { text := "Source: Police Incidents Feed" },
                  timestamp := incident.timestamp.rfc3339,
                  image := image } ] }

/-- Outcome of one later-generation `sendDiscordAlert` build phase:
`result = none` models the `unknown incident source` error return (no
payload is handed to the webhook in that case); `cameraLimit` records the
`LIMIT` argument passed to `findNearbyCameras`, `none` when no directory
query was issued; `attachmentName` is the multipart attachment file name,
`""` when there is none. -/
structure SendOutcome where
  result : Option DiscordWebhookPayload
  cameraLimit : Option Nat
  attachmentName : String
deriving DecidableEq

/-- The later generation's sendDiscordAlert.  Here `dir la lo n` is the
camera-directory oracle (`findNearbyCameras`; a query error behaves like
an empty result, as the source logs and keeps a nil slice), and `cap cam`
is the capture-pipeline oracle (`captureCameraImage`; `none` is a failed
download, which the source logs and proceeds without an attachment). -/
def sendDiscordAlert (dir : Int → Int → Nat → List Camera) (cap : Camera → Option String)
    (mapsAPIKey : String) (incident : UnifiedIncident) : SendOutcome :=
  if incident.source ≠ "ArcGIS_Police" then
    let queried : Option (List Camera) :=
      match incident.latitude, incident.longitude with
      | some la, some lo => some (dir la lo 3)
      | _, _ => none
    let nearbyCameras : List Camera := queried.getD []
    let attachmentName : String :=
      match nearbyCameras with
      | [] => ""
      | cam :: _ => (cap cam).getD ""
    let result : Option DiscordWebhookPayload :=
      if incident.source = "NCDOT" then
        some (buildNcdotPayload mapsAPIKey incident nearbyCameras attachmentName)
      else if incident.source = "RWECC" then
        some (buildRweccPayload mapsAPIKey incident nearbyCameras attachmentName)
      else none
    { result := result, cameraLimit := queried.map (fun _ => 3), attachmentName := attachmentName }
  else
    { result := some (buildArcGisPayload mapsAPIKey incident), cameraLimit := none,
      attachmentName := "" }

/-- The later-generation notify attempt as the driver sees it: build the
payload and, when the build succeeded, post it; `post` is the webhook
oracle (`postMultipartToWebhook`), returning the created message id on a
2xx response. -/
def sendDiscordAlertResult (dir : Int → Int → Nat → List Camera) (cap : Camera → Option String)
    (post : DiscordWebhookPayload → Option String) (mapsAPIKey : String)
    (incident : UnifiedIncident) : Option String :=
  match (sendDiscordAlert dir cap mapsAPIKey incident).result with
  | none => none
  | some payload => post payload

/-- Go json.Unmarshal of an earlier-generation
details column (`none` models invalid JSON, which is an unmarshal
error). -/
def decodeNcdotDetails (details : Option Jv) : NcdotRaw × Bool :=
  match details with
  | some v => decodeNcdot v
  | none => ({}, true)

/-- Earlier-generation details unmarshal for RWECC. -/
def decodeRweccDetails (details : Option Jv) : RweccRaw × Bool :=
  match details with
  | some v => decodeRwecc v
  | none => ({}, true)

/-- The earlier generation's sendNcdotAlert (build phase): an
unmarshal error of the details column is returned as an error (`none`)
before anything is posted.  Camera enrichment lists all returned cameras
as a single "Nearby Cameras" field. -/
def sendNcdotAlertOld (dir : Int → Int → Nat → List Camera) (mapsAPIKey : String)
    (incident : UnifiedIncident) : Option DiscordWebhookPayload :=
  let decoded := decodeNcdotDetails incident.details
  if decoded.2 then none
  else
    let ncdotDetails := decoded.1
    let color := ncdotColor ncdotDetails.severity
    let fields : List EmbedField :=
      [ { name := "Reason", value := ncdotDetails.reason, inline := false },
        { name := "Road", value := ncdotDetails.road, inline := false },
        { name := "Location", value := ncdotDetails.location, inline := false },
        { name := "Severity", value := toString ncdotDetails.severity, inline := false } ]
    let fields : List EmbedField :=
      match incident.latitude, incident.longitude with
      | some la, some lo =>
        let nearbyCameras := dir la lo 3
        if nearbyCameras.length > 0 then
          fields ++ [{ name := "Nearby Cameras", value := allCameraLinks nearbyCameras, inline := false }]
        else fields
      | _, _ => fields
    let thumbnail : EmbedThumbnail :=
      match incident.latitude, incident.longitude with
      | some la, some lo =>
        if mapsAPIKey ≠ "" then { url := staticMapURL "zoom=14&size=300x300" "red" la lo mapsAPIKey }
        else {}
      | _, _ => {}
    some { username := "Unified Alert Bot",
           embeds := [ { title := "ðŸš¨ NC DOT - New Vehicle Crash ðŸš¨", color := color,
                         fields := fields, footer := { text := "Source: NC DOT API" },
                         timestamp := incident.timestamp.rfc3339, thumbnail := thumbnail } ] }

/-- The earlier generation's sendRweccAlert (build phase). -/
def sendRweccAlertOld (dir : Int → Int → Nat → List Camera) (mapsAPIKey : String)
    (incident : UnifiedIncident) : Option DiscordWebhookPayload :=
  let decoded := decodeRweccDetails incident.details
  if decoded.2 then none
  else
    let rweccDetails := decoded.1
    let fields : List EmbedField :=
      [ { name := "Address", value := incident.address, inline := false },
        { name := "Jurisdiction", value := rweccDetails.jurisdiction, inline := false } ]
    let fields : List EmbedField :=
      match incident.latitude, incident.longitude with
      | some la, some lo =>
        let nearbyCameras := dir la lo 3
        if nearbyCameras.length > 0 then
          fields ++ [{ name := "Nearby Cameras", value := allCameraLinks nearbyCameras, inline := false }]
        else fields
      | _, _ => fields
    let thumbnail : EmbedThumbnail :=
      match incident.latitude, incident.longitude with
      | some la, some lo =>
        if mapsAPIKey ≠ "" then { url := staticMapURL "zoom=14&size=300x300" "red" la lo mapsAPIKey }
        else {}
      | _, _ => {}
    some { username := "Unified Alert Bot",
           embeds := [ { title := "ðŸ”µ " ++ rweccDetails.problem ++ " ðŸ”µ", color := 3447003,
                         fields := fields, footer := { text := "Source: Raleigh-Wake ECC" },
                         timestamp := incident.timestamp.rfc3339, thumbnail := thumbnail } ] }

/-- The earlier generation's sendDiscordAlert (build phase): two-way
source dispatch, unknown sources are an error. -/
def sendDiscordAlertOld (dir : Int → Int → Nat → List Camera) (mapsAPIKey : String)
    (incident : UnifiedIncident) : Option DiscordWebhookPayload :=
  if incident.source = "NCDOT" then sendNcdotAlertOld dir mapsAPIKey incident
  else if incident.source = "RWECC" then sendRweccAlertOld dir mapsAPIKey incident
  else none

/-- The earlier-generation notify attempt as its driver sees it. -/
def sendDiscordAlertOldResult (dir : Int → Int → Nat → List Camera)
    (post : DiscordWebhookPayload → Option String) (mapsAPIKey : String)
    (incident : UnifiedIncident) : Option String :=
  match sendDiscordAlertOld dir mapsAPIKey incident with
  | none => none
  | some payload => post payload

/-- The fixed cleared-message payload built by `updateDiscordAlert`
(identical in both generations up to the earlier generation's mangled
emoji literals; the later generation's literal is embedded).  `now` is
the `time.Now().UTC().Format(time.RFC3339)` rendering. -/
def clearedPayload (now : String) (incident : UnifiedIncident) : DiscordWebhookPayload :=
  { embeds := [ { title := "✅ Incident Cleared ✅", color := 3066993,
                  fields := [ { name := "Source", value := incident.source, inline := false },
                              { name := "Address", value := incident.address, inline := false } ],
                  footer := { text := "Incident no longer in active feed" },
                  timestamp := now } ] }

/-- The later-generation Pass 1 query:
`WHERE status = 'active' AND discord_message_id IS NULL`. -/
def pass1Query (table : List UnifiedIncident) : List UnifiedIncident :=
  table.filter (fun i => decide (i.status = Status.active ∧ i.discordMessageID = none))

/-- The update `UPDATE unified_incidents SET discord_message_id = <v> WHERE id = <rowID>`. -/
def updateMessageID (table : List UnifiedIncident) (rowID : Nat) (v : Option String) :
    List UnifiedIncident :=
  table.map (fun r => if r.id = rowID then { r with discordMessageID := v } else r)

/-- State threaded through the later-generation Pass 1 loop: the table
and the ids for which a notify (`sendDiscordAlert`) call was issued, in
order. -/
structure Pass1Result where
  table : List UnifiedIncident
  calls : List Nat

/-- One iteration of the later-generation Pass 1 row loop: in debug mode
(`NOTIFY_DISCORD=0`) the row is only logged; otherwise a notify call is
issued, a failure is logged and skipped, and a success persists the
returned message id onto the row. -/
def pass1Step (send : UnifiedIncident → Option String) (notifyDiscord : String)
    (acc : Pass1Result) (i : UnifiedIncident) : Pass1Result :=
  if notifyDiscord = "0" then acc
  else
    match send i with
    | none => { acc with calls := acc.calls ++ [i.id] }
    | some messageID =>
      { table := updateMessageID acc.table i.id (some messageID),
        calls := acc.calls ++ [i.id] }

/-- The later-generation Pass 1 row loop over the query snapshot. -/
def pass1Loop (send : UnifiedIncident → Option String) (notifyDiscord : String) :
    List UnifiedIncident → Pass1Result → Pass1Result
  | [], acc => acc
  | i :: rest, acc => pass1Loop send notifyDiscord rest (pass1Step send notifyDiscord acc i)

/-- One later-generation Pass 1 (process new incidents). -/
def runPass1 (send : UnifiedIncident → Option String) (notifyDiscord : String)
    (table : List UnifiedIncident) : Pass1Result :=
  pass1Loop send notifyDiscord (pass1Query table) { table := table, calls := [] }

/-- The Pass 2 query:
`WHERE status = 'cleared' AND discord_message_id IS NOT NULL`. -/
def pass2Query (table : List UnifiedIncident) : List UnifiedIncident :=
  table.filter (fun i => decide (i.status = Status.cleared ∧ i.discordMessageID ≠ none))

/-- One edit (`PATCH {webhook}/messages/{id}`) issued by Pass 2. -/
structure EditCall where
  rowID : Nat
  messageID : String
  payload : DiscordWebhookPayload
deriving DecidableEq

/-- State threaded through the Pass 2 loop. -/
structure Pass2Result where
  table : List UnifiedIncident
  edits : List EditCall

/-- The edit call Pass 2 issues for one row: `PATCH` at the row's stored
message id, carrying the cleared payload. -/
def mkEditCall (now : String) (i : UnifiedIncident) : EditCall :=
  { rowID := i.id, messageID := i.discordMessageID.getD "",
    payload := clearedPayload now i }

/-- One iteration of the Pass 2 row loop: an edit call is always issued
for the row; only on its success is the row's message id nulled. -/
def pass2Step (editOk : UnifiedIncident → Bool) (now : String)
    (acc : Pass2Result) (i : UnifiedIncident) : Pass2Result :=
  let call : EditCall := mkEditCall now i
  if editOk i then
    { table := updateMessageID acc.table i.id none, edits := acc.edits ++ [call] }
  else
    { acc with edits := acc.edits ++ [call] }

/-- The Pass 2 row loop over the query snapshot. -/
def pass2Loop (editOk : UnifiedIncident → Bool) (now : String) :
    List UnifiedIncident → Pass2Result → Pass2Result
  | [], acc => acc
  | i :: rest, acc => pass2Loop editOk now rest (pass2Step editOk now acc i)

/-- One Pass 2 (process cleared incidents). -/
def runPass2 (editOk : UnifiedIncident → Bool) (now : String)
    (table : List UnifiedIncident) : Pass2Result :=
  pass2Loop editOk now (pass2Query table) { table := table, edits := [] }

/-- The earlier-generation Pass 1 query: `WHERE status = 'active'`. -/
def pass1OldQuery (table : List UnifiedIncident) : List UnifiedIncident :=
  table.filter (fun i => decide (i.status = Status.active))

/-- State threaded through the earlier-generation Pass 1 loop: the
table, the sent-state set (the `sentIDs` map, modelled as the list of ids
mapped to true), and the notify calls issued. -/
structure Pass1OldResult where
  table : List UnifiedIncident
  sentIDs : List Nat
  calls : List Nat

/-- One iteration of the earlier-generation Pass 1 loop: rows already in
the sent-state set are skipped; otherwise a notify call is issued, a
failure is logged and skipped, and a success persists the message id and
marks the id sent. -/
def pass1OldStep (send : UnifiedIncident → Option String)
    (acc : Pass1OldResult) (i : UnifiedIncident) : Pass1OldResult :=
  if i.id ∈ acc.sentIDs then acc
  else
    match send i with
    | none => { acc with calls := acc.calls ++ [i.id] }
    | some messageID =>
      { table := updateMessageID acc.table i.id (some messageID),
        sentIDs := acc.sentIDs ++ [i.id],
        calls := acc.calls ++ [i.id] }

/-- The earlier-generation Pass 1 row loop. -/
def pass1OldLoop (send : UnifiedIncident → Option String) :
    List UnifiedIncident → Pass1OldResult → Pass1OldResult
  | [], acc => acc
  | i :: rest, acc => pass1OldLoop send rest (pass1OldStep send acc i)

/-- One earlier-generation Pass 1. -/
def runPass1Old (send : UnifiedIncident → Option String)
    (table : List UnifiedIncident) (sentIDs : List Nat) : Pass1OldResult :=
  pass1OldLoop send (pass1OldQuery table) { table := table, sentIDs := sentIDs, calls := [] }

/-- A concrete active, unnotified NCDOT row used by witnesses. -/
def w1Row : UnifiedIncident := { id := 7, source := "NCDOT", status := Status.active }

/-- A concrete cleared, notified RWECC row. -/
def w2Row : UnifiedIncident :=
  { id := 3, source := "RWECC", address := "1 Main St",
    discordMessageID := some "msg3", status := Status.cleared }

/-- A second concrete active row, used with `w1Row` by the C3 witness. -/
def w3Row : UnifiedIncident := { id := 9, source := "RWECC", status := Status.active }

/-- The C4 details document: a raw_incident with reason "Crash", road
"I-40", location "Exit 12", severity 2, and a null weather member. -/
def c4Details : Option Jv :=
  some (Jv.obj
    [("raw_incident", Jv.obj
        [("reason", Jv.str "Crash"), ("road", Jv.str "I-40"),
         ("location", Jv.str "Exit 12"), ("severity", Jv.num 2)]),
     ("weather", Jv.null)])

/-- A concrete NCDOT row carrying the C4 details. -/
def c4Row : UnifiedIncident := { id := 1, source := "NCDOT", details := c4Details }

/-- A new-shape details document carrying only a severity. -/
def sevDetails (s : Int) : Option Jv :=
  some (Jv.obj [("raw_incident", Jv.obj [("severity", Jv.num s)])])

/-- A concrete ArcGIS row whose case_number carries the sentinel. -/
def c7Row : UnifiedIncident :=
  { id := 4, source := "ArcGIS_Police",
    details := some (Jv.obj [("raw_incident", Jv.obj
      [("case_number", Jv.str "NO_CASE-123"), ("crime_description", Jv.str "Theft"),
       ("agency", Jv.str "RPD")])]) }

/-- The C5 legacy-shape details document. -/
def c5Details : Option Jv :=
  some (Jv.obj [("problem", Jv.str "Water main break"), ("jurisdiction", Jv.str "Raleigh")])

/-- A concrete RWECC row carrying the C5 legacy details. -/
def c5Row : UnifiedIncident := { id := 5, source := "RWECC", details := c5Details }

/-- A concrete NCDOT row whose details are a JSON string — a details
unmarshal error for the earlier generation. -/
def c6Row : UnifiedIncident := { id := 11, source := "NCDOT", details := some (Jv.str "oops") }

/-- An active NCDOT row with both coordinates. -/
def w6Row : UnifiedIncident :=
  { id := 6, source := "NCDOT", latitude := some 35, longitude := some (-78) }

/-- A concrete row with an unrecognized source tag. -/
def c9Row : UnifiedIncident := { id := 12, source := "Sasquatch" }

/-- Three directory cameras used by the C8 witness. -/
def wCams : List Camera :=
  [{ name := "Cam A", imageURL := "http://a/img.jpg" },
   { name := "Cam B", imageURL := "http://b/img.jpg" },
   { name := "Cam C", imageURL := "http://c/img.jpg" }]

lemma updateMessageID_map_id (t : List UnifiedIncident) (j : Nat) (v : Option String) :
    (updateMessageID t j v).map (·.id) = t.map (·.id) := by
  induction t with
  | nil => rfl
  | cons a t ih =>
    simp only [updateMessageID, List.map_cons] at ih ⊢
    by_cases h : a.id = j <;> simp [h, ih]

lemma mem_updateMessageID_ne {t : List UnifiedIncident} {j : Nat} {v : Option String}
    {r : UnifiedIncident} (hr : r ∈ updateMessageID t j v) (hne : r.id ≠ j) : r ∈ t := by
  unfold updateMessageID at hr
  rcases List.mem_map.mp hr with ⟨r0, hr0, heq⟩
  by_cases h : r0.id = j
  · rw [if_pos h] at heq
    exfalso
    apply hne
    rw [← heq]
    exact h
  · rw [if_neg h] at heq
    rw [← heq]
    exact hr0

lemma mem_updateMessageID_eq {t : List UnifiedIncident} {j : Nat} {v : Option String}
    {r : UnifiedIncident} (hr : r ∈ updateMessageID t j v) (hid : r.id = j) :
    r.discordMessageID = v := by
  unfold updateMessageID at hr
  rcases List.mem_map.mp hr with ⟨r0, _, heq⟩
  by_cases h : r0.id = j
  · rw [if_pos h] at heq
    rw [← heq]
  · rw [if_neg h] at heq
    exact absurd (heq ▸ hid) h

lemma pass1Loop_calls (send : UnifiedIncident → Option String) {notifyDiscord : String}
    (hnd : notifyDiscord ≠ "0") (batch : List UnifiedIncident) (acc : Pass1Result) :
    (pass1Loop send notifyDiscord batch acc).calls = acc.calls ++ batch.map (·.id) := by
  induction batch generalizing acc with
  | nil => simp [pass1Loop]
  | cons i rest ih =>
    rw [pass1Loop, ih]
    unfold pass1Step
    rw [if_neg hnd]
    cases send i <;> simp

lemma pass1Loop_table_map_id (send : UnifiedIncident → Option String) (notifyDiscord : String)
    (batch : List UnifiedIncident) (acc : Pass1Result) :
    (pass1Loop send notifyDiscord batch acc).table.map (·.id) = acc.table.map (·.id) := by
  induction batch generalizing acc with
  | nil => rfl
  | cons i rest ih =>
    rw [pass1Loop, ih]
    unfold pass1Step
    by_cases h : notifyDiscord = "0"
    · rw [if_pos h]
    · rw [if_neg h]
      cases send i <;> simp [updateMessageID_map_id]

lemma pass1Loop_preserve {send : UnifiedIncident → Option String} {notifyDiscord : String}
    {batch : List UnifiedIncident} {acc : Pass1Result} {id0 : Nat} {v : Option String}
    (hb : ∀ j ∈ batch, j.id = id0 → send j = none)
    (ha : ∀ r ∈ acc.table, r.id = id0 → r.discordMessageID = v) :
    ∀ r ∈ (pass1Loop send notifyDiscord batch acc).table, r.id = id0 →
      r.discordMessageID = v := by
  induction batch generalizing acc with
  | nil => exact ha
  | cons i rest ih =>
    rw [pass1Loop]
    refine ih (fun j hj => hb j (List.mem_cons_of_mem _ hj)) ?_
    unfold pass1Step
    by_cases h : notifyDiscord = "0"
    · rw [if_pos h]; exact ha
    · rw [if_neg h]
      cases hsend : send i with
      | none => exact ha
      | some mid =>
        intro r hr hid
        by_cases hii : i.id = id0
        · exact absurd hsend (by rw [hb i (List.mem_cons_self i rest) hii]; simp)
        · exact ha r (mem_updateMessageID_ne hr (by rw [hid]; exact fun e => hii e.symm)) hid

lemma pass1Loop_append (send : UnifiedIncident → Option String) (notifyDiscord : String)
    (a b : List UnifiedIncident) (acc : Pass1Result) :
    pass1Loop send notifyDiscord (a ++ b) acc
      = pass1Loop send notifyDiscord b (pass1Loop send notifyDiscord a acc) := by
  induction a generalizing acc with
  | nil => rfl
  | cons i rest ih => rw [List.cons_append, pass1Loop, pass1Loop, ih]

lemma split_unique_id {batch : List UnifiedIncident} {i : UnifiedIncident}
    (hn : (batch.map (·.id)).Nodup) (hi : i ∈ batch) :
    ∃ pre post, batch = pre ++ i :: post ∧ (∀ j ∈ pre, j.id ≠ i.id) ∧
      (∀ j ∈ post, j.id ≠ i.id) := by
  rcases List.append_of_mem hi with ⟨pre, post, rfl⟩
  refine ⟨pre, post, rfl, ?_, ?_⟩
  · intro j hj he
    have h1 : i.id ∈ (pre.map (·.id)) := he ▸ List.mem_map_of_mem _ hj
    have h2 : i.id ∈ ((i :: post).map (·.id)) := by simp
    rw [List.map_append, List.nodup_append] at hn
    exact hn.2.2 h1 h2
  · intro j hj he
    rw [List.map_append, List.nodup_append] at hn
    have := hn.2.1
    rw [List.map_cons, List.nodup_cons] at this
    exact this.1 (he ▸ List.mem_map_of_mem _ hj)

lemma inj_on_id_of_nodup {table : List UnifiedIncident}
    (hn : (table.map (·.id)).Nodup) {a b : UnifiedIncident}
    (ha : a ∈ table) (hb : b ∈ table) (he : a.id = b.id) : a = b :=
  List.inj_on_of_nodup_map hn ha hb he

/-- C1: for an incident with status active and a null discord_message_id,
one later-generation Pass 1 issues exactly one notify call for it (the
Pass 1 query selects exactly the rows with status = 'active' and
discord_message_id IS NULL); when that call succeeds with message id
`mid`, the row's discord_message_id becomes `mid`, and immediately
re-running the pass with no new data issues zero further notify calls
for that incident. -/
theorem pass1_notifies_once_then_idempotent
    (send : UnifiedIncident → Option String) (notifyDiscord : String)
    (table : List UnifiedIncident) (i : UnifiedIncident) (mid : String)
    (hnd : notifyDiscord ≠ "0")
    (hnodup : (table.map (·.id)).Nodup)
    (hi : i ∈ table) (hact : i.status = Status.active) (hnew : i.discordMessageID = none) :
    (runPass1 send notifyDiscord table).calls.count i.id = 1 ∧
    (∀ r ∈ pass1Query table, r.status = Status.active ∧ r.discordMessageID = none) ∧
    (send i = some mid →
      (∀ r ∈ (runPass1 send notifyDiscord table).table, r.id = i.id →
        r.discordMessageID = some mid) ∧
      (runPass1 send notifyDiscord (runPass1 send notifyDiscord table).table).calls.count i.id
        = 0) := by
  have hqi : i ∈ pass1Query table :=
    List.mem_filter.mpr ⟨hi, by simp [hact, hnew]⟩
  have hq_nodup : ((pass1Query table).map (·.id)).Nodup :=
    List.Nodup.sublist (List.Sublist.map _ (List.filter_sublist _)) hnodup
  have hmem_id : i.id ∈ (pass1Query table).map (·.id) := List.mem_map_of_mem _ hqi
  have hupd : send i = some mid →
      ∀ r ∈ (runPass1 send notifyDiscord table).table, r.id = i.id →
        r.discordMessageID = some mid := by
    intro hsend
    rcases split_unique_id hq_nodup hqi with ⟨pre, post, hsplit, _, hpost⟩
    rw [runPass1, hsplit, pass1Loop_append, pass1Loop]
    refine pass1Loop_preserve ?_ ?_
    · intro j hj he
      exact absurd he (hpost j hj)
    · unfold pass1Step
      rw [if_neg hnd, hsend]
      intro r hr hid
      exact mem_updateMessageID_eq hr hid
  refine ⟨?_, ?_, fun hsend => ⟨hupd hsend, ?_⟩⟩
  · rw [runPass1, pass1Loop_calls send hnd, List.nil_append]
    exact List.count_eq_one_of_mem hq_nodup hmem_id
  · intro r hr
    have := (List.mem_filter.mp hr).2
    simpa using this
  · rw [runPass1, pass1Loop_calls send hnd, List.nil_append]
    rw [List.count_eq_zero]
    intro hmem
    rcases List.mem_map.mp hmem with ⟨r, hr, hid⟩
    have hfil := List.mem_filter.mp hr
    have hdm : r.discordMessageID = none := by
      have := hfil.2
      simp only [decide_eq_true_eq] at this
      exact this.2
    have := hupd hsend r hfil.1 hid
    rw [hdm] at this
    exact Option.noConfusion this

theorem pass1_notifies_once_then_idempotent_witness :
    (("1" : String) ≠ "0" ∧ w1Row ∈ [w1Row] ∧ w1Row.status = Status.active ∧
      w1Row.discordMessageID = none) ∧
    ((runPass1 (fun _ => some "msg7") "1" [w1Row]).calls.count w1Row.id = 1 ∧
     (∀ r ∈ pass1Query [w1Row], r.status = Status.active ∧ r.discordMessageID = none) ∧
     ((fun _ : UnifiedIncident => some "msg7") w1Row = some "msg7" →
       (∀ r ∈ (runPass1 (fun _ => some "msg7") "1" [w1Row]).table, r.id = w1Row.id →
         r.discordMessageID = some "msg7") ∧
       (runPass1 (fun _ => some "msg7") "1"
           (runPass1 (fun _ => some "msg7") "1" [w1Row]).table).calls.count w1Row.id = 0)) := by
  refine ⟨⟨by decide, List.mem_cons_self _ _, rfl, rfl⟩, ?_⟩
  exact pass1_notifies_once_then_idempotent (fun _ => some "msg7") "1" [w1Row] w1Row "msg7"
    (by decide) (by decide) (List.mem_cons_self _ _) rfl rfl

lemma pass2Loop_edits (editOk : UnifiedIncident → Bool) (now : String)
    (batch : List UnifiedIncident) (acc : Pass2Result) :
    (pass2Loop editOk now batch acc).edits
      = acc.edits ++ batch.map (mkEditCall now) := by
  induction batch generalizing acc with
  | nil => simp [pass2Loop]
  | cons i rest ih =>
    rw [pass2Loop, ih]
    unfold pass2Step
    by_cases h : editOk i <;> simp [h]

lemma pass2Loop_preserve {editOk : UnifiedIncident → Bool} {now : String}
    {batch : List UnifiedIncident} {acc : Pass2Result} {id0 : Nat} {v : Option String}
    (hb : ∀ j ∈ batch, j.id ≠ id0)
    (ha : ∀ r ∈ acc.table, r.id = id0 → r.discordMessageID = v) :
    ∀ r ∈ (pass2Loop editOk now batch acc).table, r.id = id0 →
      r.discordMessageID = v := by
  induction batch generalizing acc with
  | nil => exact ha
  | cons i rest ih =>
    rw [pass2Loop]
    refine ih (fun j hj => hb j (List.mem_cons_of_mem _ hj)) ?_
    unfold pass2Step
    by_cases h : editOk i
    · rw [if_pos h]
      intro r hr hid
      have hne : r.id ≠ i.id := by
        rw [hid]
        exact fun e => hb i (List.mem_cons_self i rest) e.symm
      exact ha r (mem_updateMessageID_ne hr hne) hid
    · rw [if_neg h]
      exact ha

lemma pass2Loop_append (editOk : UnifiedIncident → Bool) (now : String)
    (a b : List UnifiedIncident) (acc : Pass2Result) :
    pass2Loop editOk now (a ++ b) acc = pass2Loop editOk now b (pass2Loop editOk now a acc) := by
  induction a generalizing acc with
  | nil => rfl
  | cons i rest ih => rw [List.cons_append, pass2Loop, pass2Loop, ih]

lemma filter_id_eq_singleton {batch : List UnifiedIncident} {i : UnifiedIncident}
    (hn : (batch.map (·.id)).Nodup) (hi : i ∈ batch) :
    batch.filter (fun j => decide (j.id = i.id)) = [i] := by
  rcases split_unique_id hn hi with ⟨pre, post, rfl, hpre, hpost⟩
  have h1 : pre.filter (fun j => decide (j.id = i.id)) = [] := by
    rw [List.filter_eq_nil_iff]
    intro a ha
    simp [hpre a ha]
  have h2 : post.filter (fun j => decide (j.id = i.id)) = [] := by
    rw [List.filter_eq_nil_iff]
    intro a ha
    simp [hpost a ha]
  rw [List.filter_append, h1, List.filter_cons, List.nil_append]
  simp [h2]

lemma filter_rowID_map (now : String) (batch : List UnifiedIncident) (id0 : Nat) :
    ((batch.map (mkEditCall now)).filter (fun c => decide (c.rowID = id0)))
      = (batch.filter (fun j => decide (j.id = id0))).map (mkEditCall now) := by
  induction batch with
  | nil => rfl
  | cons i rest ih =>
    rw [List.map_cons, List.filter_cons, List.filter_cons]
    by_cases h : i.id = id0 <;> simp [mkEditCall, h, ih]

/-- C2 counterexample: the edit call Pass 2 issues carries the title
"✅ Incident Cleared ✅", which is not the claimed exact title
"Incident Cleared". -/
theorem pass2_cleared_title_counterexample :
    ((runPass2 (fun _ => true) "2026-01-01T00:00:00Z" [w2Row]).edits.map
        (fun c => c.payload.embeds.map (·.title))) = [["✅ Incident Cleared ✅"]] ∧
    ("✅ Incident Cleared ✅" : String) ≠ "Incident Cleared" :=
  ⟨rfl, by decide⟩

/-- C2 (amended): for every incident with status cleared and a non-null
discord_message_id, one Pass 2 run issues exactly one edit call for it,
at its stored message id, carrying the fixed cleared payload — title
"✅ Incident Cleared ✅" (the words "Incident Cleared" between emoji
decorations), green color 3066993, fields Source and Address, footer
"Incident no longer in active feed", timestamp = the current time — and
when that edit succeeds the row's discord_message_id is set to NULL. -/
theorem pass2_clears_each_notified_row
    (editOk : UnifiedIncident → Bool) (now : String) (table : List UnifiedIncident)
    (i : UnifiedIncident) (m : String)
    (hnodup : (table.map (·.id)).Nodup)
    (hi : i ∈ table) (hcl : i.status = Status.cleared) (hmid : i.discordMessageID = some m) :
    ((runPass2 editOk now table).edits.filter (fun c => decide (c.rowID = i.id)))
      = [{ rowID := i.id, messageID := m, payload := clearedPayload now i }] ∧
    (clearedPayload now i).embeds.map (·.title) = ["✅ Incident Cleared ✅"] ∧
    (clearedPayload now i).embeds.map (·.color) = [3066993] ∧
    (clearedPayload now i).embeds.map (·.fields)
      = [[ { name := "Source", value := i.source, inline := false },
           { name := "Address", value := i.address, inline := false } ]] ∧
    (clearedPayload now i).embeds.map (·.footer.text) = ["Incident no longer in active feed"] ∧
    (clearedPayload now i).embeds.map (·.timestamp) = [now] ∧
    (editOk i = true →
      ∀ r ∈ (runPass2 editOk now table).table, r.id = i.id →
        r.discordMessageID = none) := by
  have hqi : i ∈ pass2Query table := List.mem_filter.mpr ⟨hi, by simp [hcl, hmid]⟩
  have hq_nodup : ((pass2Query table).map (·.id)).Nodup :=
    List.Nodup.sublist (List.Sublist.map _ (List.filter_sublist _)) hnodup
  refine ⟨?_, rfl, rfl, rfl, rfl, rfl, ?_⟩
  · rw [runPass2, pass2Loop_edits, List.nil_append, filter_rowID_map,
      filter_id_eq_singleton hq_nodup hqi, List.map_cons, List.map_nil]
    simp [mkEditCall, hmid]
  · intro hok r hr hid
    rcases split_unique_id hq_nodup hqi with ⟨pre, post, hsplit, _, hpost⟩
    rw [runPass2, hsplit, pass2Loop_append, pass2Loop] at hr
    refine pass2Loop_preserve (fun j hj => hpost j hj) ?_ r hr hid
    intro r' hr' hid'
    simp only [pass2Step, hok, if_true] at hr'
    exact mem_updateMessageID_eq hr' hid'

theorem pass2_clears_each_notified_row_witness :
    (w2Row ∈ [w2Row] ∧ w2Row.status = Status.cleared ∧
      w2Row.discordMessageID = some "msg3") ∧
    ((runPass2 (fun _ => true) "2026-01-01T00:00:00Z" [w2Row]).edits.filter
        (fun c => decide (c.rowID = w2Row.id)))
      = [{ rowID := w2Row.id, messageID := "msg3",
           payload := clearedPayload "2026-01-01T00:00:00Z" w2Row }] ∧
    (∀ r ∈ (runPass2 (fun _ => true) "2026-01-01T00:00:00Z" [w2Row]).table,
      r.id = w2Row.id → r.discordMessageID = none) := by
  have h := pass2_clears_each_notified_row (fun _ => true) "2026-01-01T00:00:00Z" [w2Row]
    w2Row "msg3" (by decide) (List.mem_cons_self _ _) rfl rfl
  exact ⟨⟨List.mem_cons_self _ _, rfl, rfl⟩, h.1, h.2.2.2.2.2.2 rfl⟩

lemma pass1OldLoop_sent_not_mem {send : UnifiedIncident → Option String}
    {batch : List UnifiedIncident} {acc : Pass1OldResult} {id0 : Nat}
    (hb : ∀ j ∈ batch, j.id = id0 → send j = none)
    (ha : id0 ∉ acc.sentIDs) :
    id0 ∉ (pass1OldLoop send batch acc).sentIDs := by
  induction batch generalizing acc with
  | nil => exact ha
  | cons i rest ih =>
    rw [pass1OldLoop]
    refine ih (fun j hj => hb j (List.mem_cons_of_mem _ hj)) ?_
    unfold pass1OldStep
    by_cases hc : i.id ∈ acc.sentIDs
    · rw [if_pos hc]; exact ha
    · rw [if_neg hc]
      cases hsend : send i with
      | none => exact ha
      | some mid =>
        simp only [List.mem_append, List.mem_singleton]
        rintro (h | h)
        · exact ha h
        · exact absurd hsend (by rw [hb i (List.mem_cons_self i rest) h.symm]; simp)

lemma pass1OldLoop_preserve {send : UnifiedIncident → Option String}
    {batch : List UnifiedIncident} {acc : Pass1OldResult} {id0 : Nat} {v : Option String}
    (hb : ∀ j ∈ batch, j.id = id0 → send j = none)
    (ha : ∀ r ∈ acc.table, r.id = id0 → r.discordMessageID = v) :
    ∀ r ∈ (pass1OldLoop send batch acc).table, r.id = id0 →
      r.discordMessageID = v := by
  induction batch generalizing acc with
  | nil => exact ha
  | cons i rest ih =>
    rw [pass1OldLoop]
    refine ih (fun j hj => hb j (List.mem_cons_of_mem _ hj)) ?_
    unfold pass1OldStep
    by_cases hc : i.id ∈ acc.sentIDs
    · rw [if_pos hc]; exact ha
    · rw [if_neg hc]
      cases hsend : send i with
      | none => exact ha
      | some mid =>
        intro r hr hid
        by_cases hii : i.id = id0
        · exact absurd hsend (by rw [hb i (List.mem_cons_self i rest) hii]; simp)
        · exact ha r (mem_updateMessageID_ne hr (by rw [hid]; exact fun e => hii e.symm)) hid

lemma pass1OldLoop_calls (send : UnifiedIncident → Option String) (sentIDs0 : List Nat)
    (batch : List UnifiedIncident) (acc : Pass1OldResult)
    (hinv : ∀ j ∈ batch, (j.id ∈ acc.sentIDs ↔ j.id ∈ sentIDs0))
    (hnodup : (batch.map (·.id)).Nodup) :
    (pass1OldLoop send batch acc).calls
      = acc.calls ++ (batch.filter (fun j => decide (j.id ∉ sentIDs0))).map (·.id) := by
  induction batch generalizing acc with
  | nil => simp [pass1OldLoop]
  | cons i rest ih =>
    have hinv_i := hinv i (List.mem_cons_self i rest)
    rw [List.map_cons] at hnodup
    have hnodup' := List.nodup_cons.mp hnodup
    rw [pass1OldLoop, List.filter_cons]
    by_cases hc : i.id ∈ acc.sentIDs
    · have hs0 : i.id ∈ sentIDs0 := hinv_i.mp hc
      rw [if_neg (by simp [hs0])]
      unfold pass1OldStep
      rw [if_pos hc]
      exact ih acc (fun j hj => hinv j (List.mem_cons_of_mem _ hj)) hnodup'.2
    · have hs0 : i.id ∉ sentIDs0 := fun h => hc (hinv_i.mpr h)
      rw [if_pos (by simp [hs0])]
      cases hsend : send i with
      | none =>
        simp only [pass1OldStep, if_neg hc, hsend]
        rw [ih ⟨acc.table, acc.sentIDs, acc.calls ++ [i.id]⟩
          (fun j hj => hinv j (List.mem_cons_of_mem _ hj)) hnodup'.2]
        simp
      | some mid =>
        have hinvr : ∀ j ∈ rest, (j.id ∈ acc.sentIDs ++ [i.id] ↔ j.id ∈ sentIDs0) := by
          intro j hj
          have hne : j.id ≠ i.id := by
            intro he
            exact hnodup'.1 (he ▸ List.mem_map_of_mem _ hj)
          simp only [List.mem_append, List.mem_singleton, hne, or_false]
          exact hinv j (List.mem_cons_of_mem _ hj)
        simp only [pass1OldStep, if_neg hc, hsend]
        rw [ih ⟨updateMessageID acc.table i.id (some mid), acc.sentIDs ++ [i.id],
          acc.calls ++ [i.id]⟩ hinvr hnodup'.2]
        simp

/-- C3: a notify failure for incident X leaves X's state unchanged — its
discord_message_id stays NULL in the later generation, and its id is not
added to the sent-state set in the earlier generation — so X stays
eligible for the next invocation, and the pass still issues the notify
call of every eligible row of the batch in both generations. -/
theorem send_failure_is_isolated
    (send sendO : UnifiedIncident → Option String) (notifyDiscord : String)
    (table : List UnifiedIncident) (sentIDs0 : List Nat) (x : UnifiedIncident)
    (hnd : notifyDiscord ≠ "0") (hnodup : (table.map (·.id)).Nodup)
    (hx : x ∈ table) (hnew : x.discordMessageID = none)
    (hfail : send x = none) (hxid : x.id ∉ sentIDs0) (hfailO : sendO x = none) :
    ((runPass1 send notifyDiscord table).calls = (pass1Query table).map (·.id)) ∧
    (∀ r ∈ (runPass1 send notifyDiscord table).table, r.id = x.id →
      r.discordMessageID = none) ∧
    (x.id ∉ (runPass1Old sendO table sentIDs0).sentIDs) ∧
    ((runPass1Old sendO table sentIDs0).calls
      = ((pass1OldQuery table).filter (fun j => decide (j.id ∉ sentIDs0))).map (·.id)) ∧
    (∀ r ∈ (runPass1Old sendO table sentIDs0).table, r.id = x.id →
      r.discordMessageID = none) := by
  have hbNew : ∀ j ∈ pass1Query table, j.id = x.id → send j = none := by
    intro j hj he
    have hjt : j ∈ table := (List.mem_filter.mp hj).1
    rw [inj_on_id_of_nodup hnodup hjt hx he]
    exact hfail
  have hbOld : ∀ j ∈ pass1OldQuery table, j.id = x.id → sendO j = none := by
    intro j hj he
    have hjt : j ∈ table := (List.mem_filter.mp hj).1
    rw [inj_on_id_of_nodup hnodup hjt hx he]
    exact hfailO
  have hinit : ∀ r ∈ table, r.id = x.id → r.discordMessageID = none := by
    intro r hr he
    rw [inj_on_id_of_nodup hnodup hr hx he]
    exact hnew
  refine ⟨?_, ?_, ?_, ?_, ?_⟩
  · rw [runPass1, pass1Loop_calls send hnd, List.nil_append]
  · exact pass1Loop_preserve hbNew hinit
  · exact pass1OldLoop_sent_not_mem hbOld hxid
  · have hqn : ((pass1OldQuery table).map (·.id)).Nodup :=
      List.Nodup.sublist (List.Sublist.map _ (List.filter_sublist _)) hnodup
    rw [runPass1Old, pass1OldLoop_calls sendO sentIDs0 _ _ (fun j _ => Iff.rfl) hqn,
      List.nil_append]
  · exact pass1OldLoop_preserve hbOld hinit

theorem send_failure_is_isolated_witness :
    ((fun i : UnifiedIncident => if i.id = 7 then none else some "m9") w1Row = none ∧
      w1Row.id ∉ ([] : List Nat)) ∧
    ((runPass1 (fun i => if i.id = 7 then none else some "m9") "1" [w1Row, w3Row]).calls
      = (pass1Query [w1Row, w3Row]).map (·.id)) ∧
    (∀ r ∈ (runPass1 (fun i => if i.id = 7 then none else some "m9") "1"
        [w1Row, w3Row]).table, r.id = w1Row.id → r.discordMessageID = none) ∧
    (w1Row.id ∉ (runPass1Old (fun i => if i.id = 7 then none else some "m9")
      [w1Row, w3Row] []).sentIDs) := by
  have h := send_failure_is_isolated (fun i => if i.id = 7 then none else some "m9")
    (fun i => if i.id = 7 then none else some "m9") "1" [w1Row, w3Row] [] w1Row
    (by decide) (by decide) (List.mem_cons_self _ _) rfl rfl (by decide) rfl
  exact ⟨⟨rfl, by decide⟩, h.1, h.2.1, h.2.2.1⟩

/-- C4: on the given details the NCDOT builder produces color 16776960,
fields Reason=Crash, Road=I-40, Location=Exit 12, Severity=2, and no
"Weather Conditions" field (the null weather member is treated as
absent); in general the builder's severity-to-color map is 1 ↦ 3066993,
2 ↦ 16776960, 3 ↦ 15158332, otherwise 2105893. -/
theorem ncdot_builder_c4 :
    ((buildNcdotPayload "" c4Row [] "").embeds.map (·.color) = [16776960]) ∧
    ((buildNcdotPayload "" c4Row [] "").embeds.map (·.fields)
      = [[ { name := "Reason", value := "Crash", inline := false },
           { name := "Road", value := "I-40", inline := false },
           { name := "Location", value := "Exit 12", inline := false },
           { name := "Severity", value := "2", inline := false } ]]) ∧
    (∀ f ∈ payloadFields (buildNcdotPayload "" c4Row [] ""), f.name ≠ "Weather Conditions") ∧
    (∀ s : Int,
      (buildNcdotPayload "" { id := 0, details := sevDetails s } [] "").embeds.map (·.color)
        = [if s = 1 then 3066993
           else if s = 2 then 16776960
           else if s = 3 then 15158332
           else 2105893]) := by
  refine ⟨rfl, rfl, by decide, fun s => rfl⟩

/-- C7: the ArcGIS builder omits the "Case #" field exactly when the
parsed case_number starts with the sentinel prefix "NO_CASE-"; for any
other case_number the field is present with that value. -/
theorem arcgis_case_number_field (mapsAPIKey : String) (incident : UnifiedIncident) :
    (startsWithStr (arcgisParseDetails incident.details).raw.caseNumber "NO_CASE-" = true →
      ∀ f ∈ payloadFields (buildArcGisPayload mapsAPIKey incident), f.name ≠ "Case #") ∧
    (startsWithStr (arcgisParseDetails incident.details).raw.caseNumber "NO_CASE-" = false →
      ({ name := "Case #", value := (arcgisParseDetails incident.details).raw.caseNumber,
         inline := false } : EmbedField)
        ∈ payloadFields (buildArcGisPayload mapsAPIKey incident)) := by
  constructor
  · intro h f hf
    simp only [buildArcGisPayload, payloadFields, h, Bool.not_true, Bool.false_eq_true,
      if_false, List.map_cons, List.map_nil, List.flatten_cons, List.flatten_nil,
      List.append_nil, List.mem_append, List.mem_cons, List.not_mem_nil, or_false] at hf
    rcases hf with (rfl | rfl) | rfl
    · exact (by decide : ("Address" : String) ≠ "Case #")
    · exact (by decide : ("Agency" : String) ≠ "Case #")
    · exact (by decide : ("Reported" : String) ≠ "Case #")
  · intro h
    simp only [buildArcGisPayload, payloadFields, h, Bool.not_false, if_true,
      List.map_cons, List.map_nil, List.flatten_cons, List.flatten_nil,
      List.append_nil, List.mem_append, List.mem_cons, List.not_mem_nil, or_false]
    simp

theorem arcgis_case_number_field_witness :
    startsWithStr (arcgisParseDetails c7Row.details).raw.caseNumber "NO_CASE-" = true ∧
    (∀ f ∈ payloadFields (buildArcGisPayload "" c7Row), f.name ≠ "Case #") :=
  ⟨rfl, (arcgis_case_number_field "" c7Row).1 rfl⟩

/-- C5 (code bug in the later generation): on the legacy-shape details
the earlier-generation RWECC sender produces a title containing
"Water main break" and color 3447003 with no weather field, as the spec
requires; the later-generation builder, however, parses the legacy
top-level object as the new shape (the map unmarshal succeeds, so the
fallback it logs for never runs), finds no raw_incident, and yields the
empty-problem title "🔵  🔵" — which cannot contain the 16-character
phrase — though still color 3447003 and no weather field. -/
theorem rwecc_legacy_shape_divergence :
    ((sendRweccAlertOld (fun _ _ _ => []) "" c5Row).map
        (fun p => p.embeds.map (·.title)) = some ["ðŸ”µ Water main break ðŸ”µ"]) ∧
    ((sendRweccAlertOld (fun _ _ _ => []) "" c5Row).map
        (fun p => p.embeds.map (·.color)) = some [3447003]) ∧
    ((rweccParseDetails c5Row.details).path = ParsePath.newShape) ∧
    ((buildRweccPayload "" c5Row [] "").embeds.map (·.title) = ["🔵  🔵"]) ∧
    ((buildRweccPayload "" c5Row [] "").embeds.map (·.color) = [3447003]) ∧
    (∀ f ∈ payloadFields (buildRweccPayload "" c5Row [] ""), f.name ≠ "Weather Conditions") ∧
    (∀ pre post : String, "🔵  🔵" ≠ pre ++ "Water main break" ++ post) := by
  refine ⟨rfl, rfl, rfl, rfl, rfl, by decide, ?_⟩
  intro pre post h
  have hlen := congrArg String.length h
  rw [String.length_append, String.length_append] at hlen
  have h4 : ("🔵  🔵" : String).length = 4 := rfl
  have h16 : ("Water main break" : String).length = 16 := rfl
  rw [h4, h16] at hlen
  omega

/-- C6 counterexample: the earlier-generation NCDOT sender fails on a
known-source incident purely because of a details parse failure. -/
theorem earlier_gen_parse_failure :
    c6Row.source = "NCDOT" ∧ (decodeNcdotDetails c6Row.details).2 = true ∧
    sendNcdotAlertOld (fun _ _ _ => []) "" c6Row = none :=
  ⟨rfl, rfl, rfl⟩

/-- C6 (amended): in the later generation a details parse failure never
fails the builder — every known-source incident yields a payload for
every details document, and a failed build occurs only for unknown
sources; in the earlier generation, however, the NCDOT/RWECC senders
return an error exactly when the details document fails to unmarshal. -/
theorem builder_parse_tolerance (dir : Int → Int → Nat → List Camera)
    (cap : Camera → Option String) (mapsAPIKey : String) (incident : UnifiedIncident) :
    ((incident.source = "NCDOT" ∨ incident.source = "RWECC" ∨
        incident.source = "ArcGIS_Police") →
      ((sendDiscordAlert dir cap mapsAPIKey incident).result).isSome = true) ∧
    ((sendDiscordAlert dir cap mapsAPIKey incident).result = none →
      incident.source ≠ "NCDOT" ∧ incident.source ≠ "RWECC" ∧
        incident.source ≠ "ArcGIS_Police") ∧
    ((sendNcdotAlertOld dir mapsAPIKey incident = none)
      ↔ (decodeNcdotDetails incident.details).2 = true) ∧
    ((sendRweccAlertOld dir mapsAPIKey incident = none)
      ↔ (decodeRweccDetails incident.details).2 = true) := by
  have hold1 : (sendNcdotAlertOld dir mapsAPIKey incident = none)
      ↔ (decodeNcdotDetails incident.details).2 = true := by
    unfold sendNcdotAlertOld
    by_cases hd : (decodeNcdotDetails incident.details).2 = true
    · simp [hd]
    · simp [hd]
  have hold2 : (sendRweccAlertOld dir mapsAPIKey incident = none)
      ↔ (decodeRweccDetails incident.details).2 = true := by
    unfold sendRweccAlertOld
    by_cases hd : (decodeRweccDetails incident.details).2 = true
    · simp [hd]
    · simp [hd]
  refine ⟨?_, ?_, hold1, hold2⟩
  · rintro (h | h | h) <;> simp [sendDiscordAlert, h]
  · intro hnone
    refine ⟨fun h => ?_, fun h => ?_, fun h => ?_⟩ <;>
      simp [sendDiscordAlert, h] at hnone

theorem builder_parse_tolerance_witness :
    (w6Row.source = "NCDOT" ∨ w6Row.source = "RWECC" ∨ w6Row.source = "ArcGIS_Police") ∧
    ((sendDiscordAlert (fun _ _ _ => []) (fun _ => none) "" w6Row).result).isSome = true ∧
    ((sendNcdotAlertOld (fun _ _ _ => []) "" c6Row = none)
      ↔ (decodeNcdotDetails c6Row.details).2 = true) := by
  have h := builder_parse_tolerance (fun _ _ _ => []) (fun _ => none) "" w6Row
  have h6 := builder_parse_tolerance (fun _ _ _ => []) (fun _ => none) "" c6Row
  exact ⟨Or.inl rfl, h.1 (Or.inl rfl), h6.2.2.1⟩

/-- C9: an unrecognized source makes the build-and-send operation an
error in both generations — no payload is produced for the webhook, so
no message identifier can result — and the Pass 1 drivers then skip the
incident: its discord_message_id stays NULL and (earlier generation) its
id is not added to the sent-state set. -/
theorem unknown_source_is_error
    (dir : Int → Int → Nat → List Camera) (cap : Camera → Option String)
    (post : DiscordWebhookPayload → Option String) (mapsAPIKey notifyDiscord : String)
    (table : List UnifiedIncident) (x : UnifiedIncident)
    (h1 : x.source ≠ "NCDOT") (h2 : x.source ≠ "RWECC") (h3 : x.source ≠ "ArcGIS_Police")
    (hnodup : (table.map (·.id)).Nodup) (hx : x ∈ table)
    (hnew : x.discordMessageID = none) :
    ((sendDiscordAlert dir cap mapsAPIKey x).result = none) ∧
    (sendDiscordAlertResult dir cap post mapsAPIKey x = none) ∧
    (sendDiscordAlertOld dir mapsAPIKey x = none) ∧
    (sendDiscordAlertOldResult dir post mapsAPIKey x = none) ∧
    (∀ r ∈ (runPass1 (sendDiscordAlertResult dir cap post mapsAPIKey) notifyDiscord
        table).table, r.id = x.id → r.discordMessageID = none) ∧
    (x.id ∉ (runPass1Old (sendDiscordAlertOldResult dir post mapsAPIKey) table []).sentIDs) := by
  have hres : (sendDiscordAlert dir cap mapsAPIKey x).result = none := by
    simp [sendDiscordAlert, h1, h2, h3]
  have hsend : sendDiscordAlertResult dir cap post mapsAPIKey x = none := by
    unfold sendDiscordAlertResult
    rw [hres]
  have holdsend : sendDiscordAlertOld dir mapsAPIKey x = none := by
    simp [sendDiscordAlertOld, h1, h2]
  have holdres : sendDiscordAlertOldResult dir post mapsAPIKey x = none := by
    unfold sendDiscordAlertOldResult
    rw [holdsend]
  have hinit : ∀ r ∈ table, r.id = x.id → r.discordMessageID = none := by
    intro r hr he
    rw [inj_on_id_of_nodup hnodup hr hx he]
    exact hnew
  refine ⟨hres, hsend, holdsend, holdres, ?_, ?_⟩
  · refine pass1Loop_preserve ?_ hinit
    intro j hj he
    rw [inj_on_id_of_nodup hnodup (List.mem_filter.mp hj).1 hx he]
    exact hsend
  · refine pass1OldLoop_sent_not_mem ?_ (by simp)
    intro j hj he
    rw [inj_on_id_of_nodup hnodup (List.mem_filter.mp hj).1 hx he]
    exact holdres

theorem unknown_source_is_error_witness :
    (c9Row.source ≠ "NCDOT" ∧ c9Row.source ≠ "RWECC" ∧ c9Row.source ≠ "ArcGIS_Police") ∧
    (sendDiscordAlert (fun _ _ _ => []) (fun _ => none) "" c9Row).result = none ∧
    sendDiscordAlertOld (fun _ _ _ => []) "" c9Row = none ∧
    (c9Row.id ∉ (runPass1Old (sendDiscordAlertOldResult (fun _ _ _ => []) (fun _ => none) "")
      [c9Row] []).sentIDs) := by
  have h := unknown_source_is_error (fun _ _ _ => []) (fun _ => none) (fun _ => none) "" "1"
    [c9Row] c9Row (by decide) (by decide) (by decide) (by decide)
    (List.mem_cons_self _ _) rfl
  exact ⟨⟨by decide, by decide, by decide⟩, h.1, h.2.2.1, h.2.2.2.2.2⟩

/-- C10: every syntactically valid JSON object details document makes
the later-generation NCDOT and RWECC builders take the new-shape path —
the legacy fallback never runs for it; when the object lacks a
raw_incident member every source-specific field stays at its zero value,
so the NCDOT color is the neutral 2105893 (severity 0) and the RWECC
title carries an empty problem; and the legacy fallback runs only for
documents that are not JSON objects. -/
theorem new_shape_parse_dominates (fs : List (String × Jv)) :
    ((ncdotParseDetails (some (Jv.obj fs))).path = ParsePath.newShape) ∧
    ((rweccParseDetails (some (Jv.obj fs))).path = ParsePath.newShape) ∧
    (objLookup fs "raw_incident" = none →
      (ncdotParseDetails (some (Jv.obj fs))).raw = {} ∧
      (rweccParseDetails (some (Jv.obj fs))).raw = {} ∧
      (∀ mapsAPIKey incident cams att, incident.details = some (Jv.obj fs) →
        ((buildNcdotPayload mapsAPIKey incident cams att).embeds.map (·.color)
          = [2105893]) ∧
        ((buildRweccPayload mapsAPIKey incident cams att).embeds.map (·.title)
          = ["🔵  🔵"]))) ∧
    (∀ d : Option Jv, (ncdotParseDetails d).path = ParsePath.legacy →
      ∀ fs2, d ≠ some (Jv.obj fs2)) := by
  refine ⟨rfl, rfl, ?_, ?_⟩
  · intro h
    refine ⟨?_, ?_, ?_⟩
    · simp [ncdotParseDetails, unmarshalMap, h]
    · simp [rweccParseDetails, unmarshalMap, h]
    · intro mapsAPIKey incident cams att hdet
      constructor
      · simp [buildNcdotPayload, hdet, ncdotParseDetails, unmarshalMap, h, ncdotColor]
      · simp only [buildRweccPayload, hdet, rweccParseDetails, unmarshalMap, h,
          List.map_cons, List.map_nil]
        rfl
  · intro d hpath fs2 heq
    subst heq
    simp [ncdotParseDetails, unmarshalMap] at hpath

theorem new_shape_parse_dominates_witness :
    (objLookup [("weather", Jv.null)] "raw_incident" = none) ∧
    ((ncdotParseDetails (some (Jv.obj [("weather", Jv.null)]))).path
      = ParsePath.newShape) ∧
    ((buildNcdotPayload "" { id := 2, details := some (Jv.obj [("weather", Jv.null)]) }
        [] "").embeds.map (·.color) = [2105893]) := by
  have h := new_shape_parse_dominates [("weather", Jv.null)]
  exact ⟨rfl, h.1,
    ((h.2.2.1 rfl).2.2 "" { id := 2, details := some (Jv.obj [("weather", Jv.null)]) }
      [] "" rfl).1⟩

/-- C8: for a non-ArcGIS incident with both coordinates present, the
later generation requests exactly 3 nearest cameras from the directory;
the nearest returned camera is handed to the capture pipeline and, on a
successful capture, its file name becomes the inline attachment; the
cameras from position 2 onward are listed as one "Other Live Cameras"
field, which is omitted when fewer than two cameras return (in
particular when the directory returns zero); when a coordinate is absent
no directory query, no attachment and no camera field are produced; and
ArcGIS_Police incidents never receive camera enrichment. -/
theorem camera_enrichment_policy (dir : Int → Int → Nat → List Camera)
    (cap : Camera → Option String) (mapsAPIKey : String) (incident : UnifiedIncident) :
    (incident.source ≠ "ArcGIS_Police" →
      (∀ la lo, incident.latitude = some la → incident.longitude = some lo →
        (sendDiscordAlert dir cap mapsAPIKey incident).cameraLimit = some 3 ∧
        (dir la lo 3 = [] →
          (sendDiscordAlert dir cap mapsAPIKey incident).attachmentName = "") ∧
        (∀ c rest nm, dir la lo 3 = c :: rest → cap c = some nm →
          (sendDiscordAlert dir cap mapsAPIKey incident).attachmentName = nm)) ∧
      ((incident.latitude = none ∨ incident.longitude = none) →
        (sendDiscordAlert dir cap mapsAPIKey incident).cameraLimit = none ∧
        (sendDiscordAlert dir cap mapsAPIKey incident).attachmentName = "")) ∧
    (incident.source = "ArcGIS_Police" →
      (sendDiscordAlert dir cap mapsAPIKey incident).cameraLimit = none ∧
      (sendDiscordAlert dir cap mapsAPIKey incident).attachmentName = "") ∧
    (∀ cams att, cams.length ≤ 1 →
      (∀ f ∈ payloadFields (buildNcdotPayload mapsAPIKey incident cams att),
        f.name ≠ "Other Live Cameras") ∧
      (∀ f ∈ payloadFields (buildRweccPayload mapsAPIKey incident cams att),
        f.name ≠ "Other Live Cameras")) ∧
    (∀ cams att, 1 < cams.length →
      (({ name := "Other Live Cameras", value := otherCameraLinks cams,
          inline := false } : EmbedField)
        ∈ payloadFields (buildNcdotPayload mapsAPIKey incident cams att)) ∧
      (({ name := "Other Live Cameras", value := otherCameraLinks cams,
          inline := false } : EmbedField)
        ∈ payloadFields (buildRweccPayload mapsAPIKey incident cams att))) := by
  refine ⟨?_, ?_, ?_, ?_⟩
  · intro hA
    constructor
    · intro la lo hla hlo
      refine ⟨?_, ?_, ?_⟩
      · simp [sendDiscordAlert, hA, hla, hlo]
      · intro hnil
        simp [sendDiscordAlert, hA, hla, hlo, hnil]
      · intro c rest nm hcons hcap
        simp [sendDiscordAlert, hA, hla, hlo, hcons, hcap]
    · rintro (hla | hlo)
      · simp [sendDiscordAlert, hA, hla]
      · rcases hlat : incident.latitude with _ | la <;>
          simp [sendDiscordAlert, hA, hlat, hlo]
  · intro hA
    simp [sendDiscordAlert, hA]
  · intro cams att hlen
    have hgt : ¬ (1 < cams.length) := by omega
    constructor
    · intro f hf
      rcases hw : (ncdotParseDetails incident.details).weather with _ | w <;>
        simp only [buildNcdotPayload, payloadFields, hw, if_neg hgt, List.map_cons,
          List.map_nil, List.flatten_cons, List.flatten_nil, List.append_nil,
          List.mem_append, List.mem_cons, List.not_mem_nil, or_false] at hf
      · rcases hf with rfl | rfl | rfl | rfl
        · exact (by decide : ("Reason" : String) ≠ "Other Live Cameras")
        · exact (by decide : ("Road" : String) ≠ "Other Live Cameras")
        · exact (by decide : ("Location" : String) ≠ "Other Live Cameras")
        · exact (by decide : ("Severity" : String) ≠ "Other Live Cameras")
      · rcases hf with (rfl | rfl | rfl | rfl) | rfl
        · exact (by decide : ("Reason" : String) ≠ "Other Live Cameras")
        · exact (by decide : ("Road" : String) ≠ "Other Live Cameras")
        · exact (by decide : ("Location" : String) ≠ "Other Live Cameras")
        · exact (by decide : ("Severity" : String) ≠ "Other Live Cameras")
        · exact (by decide : ("Weather Conditions" : String) ≠ "Other Live Cameras")
    · intro f hf
      rcases hw : (rweccParseDetails incident.details).weather with _ | w <;>
        simp only [buildRweccPayload, payloadFields, hw, if_neg hgt, List.map_cons,
          List.map_nil, List.flatten_cons, List.flatten_nil, List.append_nil,
          List.mem_append, List.mem_cons, List.not_mem_nil, or_false] at hf
      · rcases hf with rfl | rfl
        · exact (by decide : ("Address" : String) ≠ "Other Live Cameras")
        · exact (by decide : ("Jurisdiction" : String) ≠ "Other Live Cameras")
      · rcases hf with (rfl | rfl) | rfl
        · exact (by decide : ("Address" : String) ≠ "Other Live Cameras")
        · exact (by decide : ("Jurisdiction" : String) ≠ "Other Live Cameras")
        · exact (by decide : ("Weather Conditions" : String) ≠ "Other Live Cameras")
  · intro cams att hgt
    constructor
    · rcases hw : (ncdotParseDetails incident.details).weather with _ | w <;>
        simp [buildNcdotPayload, payloadFields, hw, hgt]
    · rcases hw : (rweccParseDetails incident.details).weather with _ | w <;>
        simp [buildRweccPayload, payloadFields, hw, hgt]

theorem camera_enrichment_policy_witness :
    (w6Row.source ≠ "ArcGIS_Police" ∧ w6Row.latitude = some 35 ∧
      w6Row.longitude = some (-78)) ∧
    ((sendDiscordAlert (fun _ _ _ => wCams) (fun _ => some "cap.jpg") "" w6Row).cameraLimit
      = some 3) ∧
    ((sendDiscordAlert (fun _ _ _ => wCams) (fun _ => some "cap.jpg") "" w6Row).attachmentName
      = "cap.jpg") ∧
    (({ name := "Other Live Cameras", value := otherCameraLinks wCams,
        inline := false } : EmbedField)
      ∈ payloadFields (buildNcdotPayload "" w6Row wCams "cap.jpg")) := by
  have h := camera_enrichment_policy (fun _ _ _ => wCams) (fun _ => some "cap.jpg") "" w6Row
  have hmain := (h.1 (by decide)).1 35 (-78) rfl rfl
  refine ⟨⟨by decide, rfl, rfl⟩, hmain.1, ?_, (h.2.2.2 wCams "cap.jpg" (by decide)).1⟩
  exact hmain.2.2 { name := "Cam A", imageURL := "http://a/img.jpg" }
    [{ name := "Cam B", imageURL := "http://b/img.jpg" },
     { name := "Cam C", imageURL := "http://c/img.jpg" }] "cap.jpg" rfl rfl
